import Mathlib

/-
Verification of the real-time voice session manager of the Rishi booking
application against its natural-language specification.

The embedding below is a shallow model of:
 - `withRetry` (src/services/geminiService.ts, lines 14-35);
 - the `VoiceAssistant` component (the voice session manager): its
   `connectAndListen`, `onmessage` handler and `stopListening`
   (src/components/LoadingSpinner.tsx, second document, lines 56-212 of the
   concatenated file);
 - the capture-side PCM conversion performed inline in `onaudioprocess`
   (same file, lines 98-102, and src/components/ExploreView.tsx lines 140-144).

Machine arithmetic: audio samples and times are modelled as rationals.  The
JavaScript conversions involved (`x * 32768` followed by storing into an
`Int16Array`) are exact in binary floating point for every representable
sample, because 32768 is a power of two, so the rational model agrees with
the float computation on every input considered below.

The module `src/services/audioUtils` (`encode`, `decode`, `decodeAudioData`)
is imported by the voice component but is not present under src/; the
definitions standing in for it are marked "Modelled from the spec:".
-/

namespace RishiBooking

/- ## ResilientCaller: withRetry (src/services/geminiService.ts) -/

/-- Outcome of one invocation of the wrapped operation.  `err true` is a
transient failure (the source classifies an error as transient when its
string form mentions overload or unavailability, line 22); `err false` is a
fatal failure. -/
inductive CallOutcome (α : Type) where
  | ok (v : α)
  | err (transient : Bool)
deriving DecidableEq

/-- MAX_RETRIES, line 6 of geminiService.ts. -/
def MAX_RETRIES : Nat := 3

/-- Backoff before the next attempt, line 24:
`(Math.pow(2, i) * 1000) + (Math.random() * 1000)`.  The jitter argument is
the value of `Math.random() * 1000`, a number in [0, 1000). -/
def retryDelay (i : Nat) (jitter : ℚ) : ℚ := 2 ^ i * 1000 + jitter

/-- Observable trace of a `withRetry` run: the returned value (`none` when
the wrapper throws), the number of invocations of the operation, and the
list of back-off delays actually slept. -/
structure RetryTrace (α : Type) where
  result : Option α
  calls : Nat
  delays : List ℚ
deriving DecidableEq

/-- The retry loop of `withRetry`, lines 16-32.  `op i` is the outcome of
the operation on (zero-indexed) attempt `i`; `jitter i` is the jitter drawn
before the delay that follows attempt `i`.  A fatal error is rethrown at
once (line 29); a transient error sleeps `retryDelay` and retries; when the
attempts are exhausted the last error is thrown (line 34). -/
def withRetryGo {α : Type} (op : Nat → CallOutcome α) (jitter : Nat → ℚ) :
    Nat → Nat → RetryTrace α
  | _, 0 => { result := none, calls := 0, delays := [] }
  | i, n + 1 =>
    match op i with
    | .ok v => { result := some v, calls := 1, delays := [] }
    | .err true =>
        let t := withRetryGo op jitter (i + 1) n
        { result := t.result, calls := t.calls + 1,
          delays := retryDelay i (jitter i) :: t.delays }
    | .err false => { result := none, calls := 1, delays := [] }

/-- `withRetry`, lines 14-35 of geminiService.ts: up to MAX_RETRIES
attempts starting at attempt index 0. -/
def withRetry {α : Type} (op : Nat → CallOutcome α) (jitter : Nat → ℚ) :
    RetryTrace α :=
  withRetryGo op jitter 0 MAX_RETRIES

/-- Concrete operation for the C4 witness: transient failures on attempts
0 and 1, success on attempt 2. -/
def c4op : Nat → CallOutcome Nat
  | 0 => .err true
  | 1 => .err true
  | _ => .ok 7

/-- Concrete jitter draws for the C4 witness. -/
def c4jitter : Nat → ℚ := fun _ => 5

/- ## PcmCodec: capture-side sample conversion and the wire encoding

The capture pipeline (LoadingSpinner.tsx line 100, ExploreView.tsx line 142)
is
  encode(new Uint8Array(new Int16Array(inputData.map(x => x * 32768)).buffer))
Storing a number into an `Int16Array` performs the JavaScript ToInt16
conversion: truncation toward zero, then reduction modulo 2^16 into
[-2^15, 2^15). -/

/-- JavaScript ToIntegerOrInfinity on a finite number: truncation toward
zero. -/
def jsTrunc (q : ℚ) : ℤ := if 0 ≤ q then ⌊q⌋ else -⌊-q⌋

/-- JavaScript ToInt16: reduce modulo 2^16 into [-32768, 32768). -/
def toInt16 (n : ℤ) : ℤ := (n + 32768) % 65536 - 32768

/-- One sample as stored by `new Int16Array(inputData.map(x => x * 32768))`
(LoadingSpinner.tsx line 100). -/
def sampleToInt16 (x : ℚ) : ℤ := toInt16 (jsTrunc (x * 32768))

/-- The conversion the spec describes instead (spec 4.2): scale by 32767,
round, clamp to the int16 range. -/
def specSampleToInt16 (x : ℚ) : ℤ := max (-32768) (min 32767 (round (x * 32767)))

/-- Little-endian byte serialization of one 16-bit integer, as produced by
viewing the `Int16Array`s backing buffer through a `Uint8Array`. -/
def int16LE (n : ℤ) : List ℕ := [(n % 65536).toNat % 256, (n % 65536).toNat / 256]

/-- The standard base64 alphabet. -/
def base64Alphabet : String :=
  "ABCDEFGHIJKLMNOPQRSTUVWXYZabcdefghijklmnopqrstuvwxyz0123456789+/"

/-- Character for one 6-bit group. -/
def base64Char (n : ℕ) : Char := base64Alphabet.toList.getD n '='

/-- Standard base64 of a byte sequence. -/
def base64Encode : List ℕ → List Char
  | b0 :: b1 :: b2 :: rest =>
      base64Char (b0 / 4) :: base64Char (b0 % 4 * 16 + b1 / 16) ::
        base64Char (b1 % 16 * 4 + b2 / 64) :: base64Char (b2 % 64) ::
        base64Encode rest
  | [b0, b1] =>
      [base64Char (b0 / 4), base64Char (b0 % 4 * 16 + b1 / 16),
        base64Char (b1 % 16 * 4), '=']
  | [b0] => [base64Char (b0 / 4), base64Char (b0 % 4 * 16), '=', '=']
  | [] => []

/-- Modelled from the spec: `encode` is defined in src/services/audioUtils,
which is not present under src/.  Spec section 2 describes the wire
transport as a base64 transport encoding of the binary chunk, so `encode`
is modelled as standard base64 of the byte sequence. -/
def encode (bytes : List ℕ) : List Char := base64Encode bytes

/-- The `data` field of the pcmBlob built in `onaudioprocess`
(LoadingSpinner.tsx line 100): every sample converted by the `Int16Array`
store, serialized little-endian, then passed through `encode`. -/
def onaudioprocessBlobData (inputData : List ℚ) : List Char :=
  encode (inputData.flatMap (fun x => int16LE (sampleToInt16 x)))

/-- The same pipeline with the sample conversion the spec claims
(round to 32767 full scale, clamp): the comparison point for C7. -/
def specBlobData (inputData : List ℚ) : List Char :=
  encode (inputData.flatMap (fun x => int16LE (specSampleToInt16 x)))

/- ## VoiceAssistant state (src/components/LoadingSpinner.tsx, second
document of the concatenated file; cited line numbers follow that file)

The component keeps its session state in React refs and state hooks:
`status`, `userTranscription`, `assistantResponse`, `isListening` (state
hooks, lines 57-60) and `sessionRef`, `inputAudioContextRef`,
`outputAudioContextRef`, `streamRef`, `processorRef`, `sourcesRef`,
`nextStartTimeRef` (refs, lines 62-68).  Capture callbacks, network
events and `stopListening` interleave on the single browser event loop, so
the state machine below steps one whole handler at a time.

Ghost fields (`stoppedSources`, `scheduled`, `nextSourceId` and the close
counters) record the observable effects needed by the claims; they mirror
calls performed by the source, they do not alter its control flow. -/

/-- The vehicle/view enumeration of src/types.ts (`AppView`). -/
inductive AppView where
  | booking
  | chat
  | explore
  | payment
deriving DecidableEq

/-- Component state of the voice session.  `inputCtx`/`outputCtx` model the
AudioContext refs: `none` is a null ref, `some true` a context whose state
is not closed, `some false` a closed context. -/
structure VAState where
  status : String
  userTranscription : String
  assistantResponse : String
  isListening : Bool
  streamOpen : Bool
  inputCtx : Option Bool
  outputCtx : Option Bool
  processorOpen : Bool
  sessionOpen : Bool
  sources : List ℕ
  nextStartTime : ℚ
  stoppedSources : List ℕ
  scheduled : List (ℚ × ℚ)
  nextSourceId : ℕ
  streamStopCount : ℕ
  inputCtxCloseCount : ℕ
  outputCtxCloseCount : ℕ
  sessionCloseCount : ℕ
  hostOverlayOpen : Bool
deriving DecidableEq

/-- Initial component state: `useState` initializers (lines 57-60) and ref
initializers (lines 62-68); the App mounts the overlay open. -/
def initState : VAState :=
  { status := "Initializing..."
    userTranscription := ""
    assistantResponse := ""
    isListening := false
    streamOpen := false
    inputCtx := none
    outputCtx := none
    processorOpen := false
    sessionOpen := false
    sources := []
    nextStartTime := 0
    stoppedSources := []
    scheduled := []
    nextSourceId := 0
    streamStopCount := 0
    inputCtxCloseCount := 0
    outputCtxCloseCount := 0
    sessionCloseCount := 0
    hostOverlayOpen := true }

/-- The `name` of the JavaScript error caught by `connectAndListen`
(lines 171-177 branch on `error.name`). -/
inductive JsErrName where
  | notFoundError
  | devicesNotFoundError
  | notAllowedError
  | permissionDeniedError
  | other
deriving DecidableEq

/-- Status string chosen by the catch block of `connectAndListen`,
lines 169-178. -/
def startFailureStatus : JsErrName → String
  | .notFoundError | .devicesNotFoundError =>
      "No microphone found. Please connect a microphone and grant permission."
  | .notAllowedError | .permissionDeniedError =>
      "Microphone access denied. Please allow permission in your browser settings."
  | .other => "Could not start microphone. Please check permissions."

/-- Environment outcome of one `connectAndListen` run: `getUserMedia`
rejects, or it resolves and `ai.live.connect` rejects, or both succeed. -/
inductive StartEnv where
  | micFails (e : JsErrName)
  | connectFails (e : JsErrName)
  | ok
deriving DecidableEq

/-- `connectAndListen`, lines 70-179.  Sets status Connecting (line 71);
acquires the microphone stream (line 75), creates the two AudioContexts
(lines 78-79) and the script processor (line 82), then awaits
`ai.live.connect`.  On success `onopen` fires (status Listening, listening
flag, line 95-97) and the session ref is assigned (line 168).  On any
rejection the catch block (lines 169-178) only sets a status string: no
handle acquired so far is released. -/
def connectAndListen (env : StartEnv) (s : VAState) : VAState :=
  let s := { s with status := "Connecting..." }
  match env with
  | .micFails e => { s with status := startFailureStatus e }
  | .connectFails e =>
      { s with streamOpen := true, inputCtx := some true, outputCtx := some true,
               processorOpen := true, status := startFailureStatus e }
  | .ok =>
      { s with streamOpen := true, inputCtx := some true, outputCtx := some true,
               processorOpen := true, sessionOpen := true,
               status := "Listening...", isListening := true }

/-- `stopListening`, lines 181-204, in source order: stop and drop the
stream tracks (182-185); close each AudioContext whose state is not closed
(186-191); stop every active source node and clear the set (192-193);
disconnect and drop the processor (194-197); close and drop the session
(198-201); clear the listening flag (202); invoke the host `onClose`
callback, which the App uses to clear its overlay flag (203). -/
def stopListening (s : VAState) : VAState :=
  let s := if s.streamOpen then
      { s with streamOpen := false, streamStopCount := s.streamStopCount + 1 }
    else s
  let s := if s.inputCtx = some true then
      { s with inputCtx := some false, inputCtxCloseCount := s.inputCtxCloseCount + 1 }
    else s
  let s := if s.outputCtx = some true then
      { s with outputCtx := some false, outputCtxCloseCount := s.outputCtxCloseCount + 1 }
    else s
  let s := { s with stoppedSources := s.stoppedSources ++ s.sources, sources := [] }
  let s := if s.processorOpen then { s with processorOpen := false } else s
  let s := if s.sessionOpen then
      { s with sessionOpen := false, sessionCloseCount := s.sessionCloseCount + 1 }
    else s
  { s with isListening := false, hostOverlayOpen := false }

/-- Capture handle open: the media stream is held and the input
AudioContext is running. -/
def captureOpen (s : VAState) : Bool := s.streamOpen && s.inputCtx == some true

/-- Output device handle open. -/
def outputOpen (s : VAState) : Bool := s.outputCtx == some true

/-- Network session handle open. -/
def networkOpen (s : VAState) : Bool := s.sessionOpen

/-- The three handles of spec section 3 are all open. -/
def allHandlesOpen (s : VAState) : Bool :=
  captureOpen s && outputOpen s && networkOpen s

/-- The three handles of spec section 3 are all released. -/
def allHandlesReleased (s : VAState) : Bool :=
  !captureOpen s && !outputOpen s && !networkOpen s

/-- Abstract status of spec section 3. -/
inductive SpecStatus where
  | idle
  | connecting
  | listening
  | closed
  | failed
deriving DecidableEq

/-- Map the status strings the component stores to the abstract statuses of
spec section 3.  Every failure message (device errors, connect errors,
`onerror`) is a Failed status. -/
def specStatus (s : String) : SpecStatus :=
  if s = "Initializing..." then .idle
  else if s = "Connecting..." then .connecting
  else if s = "Listening..." then .listening
  else if s = "Connection closed." then .closed
  else .failed

/- ## The onmessage handler (lines 106-156) and tool dispatch -/

/-- Host state mutated through the props `setPickup`, `setDestination`,
`setVehicle`, `setCurrentView` (App.tsx holds these as state hooks). -/
structure HostState where
  pickup : String
  destination : String
  vehicle : String
  currentView : AppView
deriving DecidableEq

/-- Arguments of a `controlRide` invocation (`fc.args`, destructured at
line 140); each field is absent or a string. -/
structure RideArgs where
  pickup : Option String
  destination : Option String
  vehicle : Option String
deriving DecidableEq

/-- One entry of `message.toolCall.functionCalls` (line 138).  `args` is
`none` when `fc.args` is absent. -/
structure FunctionCall where
  id : String
  name : String
  args : Option RideArgs
deriving DecidableEq

/-- One `sendToolResponse` payload (lines 147-149). -/
structure ToolResponse where
  id : String
  name : String
  result : String
deriving DecidableEq

/-- The response string of line 148. -/
def okToolResult : String := "ok, details have been updated on the user\x27s screen."

/-- JavaScript truthiness of an optional string: present and non-empty. -/
def jsTruthy : Option String → Bool
  | none => false
  | some s => !s.isEmpty

/-- The vehicle guard of line 143:
`vehicle && [\x27BIKE\x27, \x27AUTO\x27, \x27CAR\x27].includes(vehicle)`. -/
def vehicleOk : Option String → Bool
  | none => false
  | some v => !v.isEmpty && ["BIKE", "AUTO", "CAR"].contains v

/-- Handling of one function call, lines 139-150: only the name
`controlRide` with a truthy `args` object is handled; it applies each
truthy field (the vehicle only when it passes the enumeration guard), sets
the view to BOOKING, and sends exactly one tool response.  Any other name
falls through the `if` with no effect and no response. -/
def applyToolCall (h : HostState) (fc : FunctionCall) : HostState × List ToolResponse :=
  match fc.args with
  | none => (h, [])
  | some a =>
      if fc.name = "controlRide" then
        let h := if jsTruthy a.pickup then { h with pickup := a.pickup.getD "" } else h
        let h := if jsTruthy a.destination then
            { h with destination := a.destination.getD "" }
          else h
        let h := if vehicleOk a.vehicle then { h with vehicle := a.vehicle.getD "" } else h
        let h := { h with currentView := AppView.booking }
        (h, [{ id := fc.id, name := fc.name, result := okToolResult }])
      else (h, [])

/-- The loop over `message.toolCall.functionCalls`, lines 138-151. -/
def applyToolCalls (h : HostState) (fcs : List FunctionCall) :
    HostState × List ToolResponse :=
  fcs.foldl
    (fun acc fc =>
      let r := applyToolCall acc.1 fc
      (r.1, acc.2 ++ r.2))
    (h, [])

/-- Modelled from the spec: the inbound audio payload handed to
`decode`/`decodeAudioData` from src/services/audioUtils, which is not
present under src/.  Spec section 4.2 says decoding fails with a
DecodeError on malformed or truncated input and otherwise yields a playable
buffer; a well-formed payload is abstracted to the duration of the decoded
buffer. -/
inductive AudioPayload where
  | malformed
  | frame (duration : ℚ)
deriving DecidableEq

/-- Modelled from the spec: `decodeAudioData (decode payload)` returns a
buffer (its duration) or fails with a DecodeError (none). -/
def decodePlayback : AudioPayload → Option ℚ
  | .malformed => none
  | .frame d => some d

/-- One `LiveServerMessage` as read by the handler: the optional
transcriptions (lines 107-112), the optional inline audio data (line 114),
the interrupted flag (line 128), the tool calls (line 137; an absent
`toolCall` is the empty list) and the turn-complete flag (line 153). -/
structure ServerMessage where
  inputTranscription : Option String
  outputTranscription : Option String
  audio : Option AudioPayload
  interrupted : Bool
  toolCalls : List FunctionCall
  turnComplete : Bool
deriving DecidableEq

/-- Result of one `onmessage` run: the component state, the host state, the
tool responses sent upstream, and whether the handler aborted with a thrown
decode error (the async handler has no try/catch, so the rejection skips
everything after the decode). -/
structure StepResult where
  state : VAState
  host : HostState
  responses : List ToolResponse
  decodeFailed : Bool
deriving DecidableEq

/-- The part of `onmessage` after the audio block: the interrupted block
(lines 128-135: stop every active source, clear the set, reset the cursor
to 0, clear the assistant transcript), the tool-call loop (lines 137-152)
and the turn-complete block (lines 153-155: clear the user transcript). -/
def onmessageAfterAudio (s : VAState) (h : HostState) (m : ServerMessage) : StepResult :=
  let s := if m.interrupted then
      { s with stoppedSources := s.stoppedSources ++ s.sources, sources := [],
               nextStartTime := 0, assistantResponse := "" }
    else s
  let hr := applyToolCalls h m.toolCalls
  let s := if m.turnComplete then { s with userTranscription := "" } else s
  { state := s, host := hr.1, responses := hr.2, decodeFailed := false }

/-- The full `onmessage` handler, lines 106-156, at device time `now`
(the value of `ctx.currentTime`).  Transcription events replace the two
transcript strings (lines 107-112).  When inline audio is present and the
output context ref is non-null (line 116): the cursor is first raised to
the device time (line 117), the payload is decoded (line 118) - a thrown
DecodeError ends the handler there - and on success the buffer is started
at the cursor, the cursor advances by its duration, and the node joins the
active set (lines 119-125).  Then the interrupted, tool-call and
turn-complete blocks run. -/
def onmessage (now : ℚ) (s : VAState) (h : HostState) (m : ServerMessage) : StepResult :=
  let s := match m.inputTranscription with
    | some t => { s with userTranscription := t }
    | none => s
  let s := match m.outputTranscription with
    | some t => { s with assistantResponse := t }
    | none => s
  match m.audio, s.outputCtx with
  | some payload, some _ =>
      let s := { s with nextStartTime := max s.nextStartTime now }
      match decodePlayback payload with
      | none => { state := s, host := h, responses := [], decodeFailed := true }
      | some dur =>
          let s := { s with
            scheduled := s.scheduled ++ [(s.nextStartTime, dur)],
            sources := s.sources ++ [s.nextSourceId],
            nextSourceId := s.nextSourceId + 1,
            nextStartTime := s.nextStartTime + dur }
          onmessageAfterAudio s h m
  | _, _ => onmessageAfterAudio s h m

/- ## Concrete fixtures used by counterexamples and witnesses -/

/-- A session in the Listening state, as reached by a fully successful
`connectAndListen` from the initial state. -/
def listeningState : VAState := connectAndListen .ok initState

/-- A host state fixture. -/
def host0 : HostState :=
  { pickup := "", destination := "", vehicle := "CAR", currentView := AppView.booking }

/-- A message carrying only an inline audio frame of the given duration. -/
def audioMsg (d : ℚ) : ServerMessage :=
  { inputTranscription := none, outputTranscription := none,
    audio := some (.frame d), interrupted := false, toolCalls := [], turnComplete := false }

/-- A message carrying only the interrupted signal. -/
def interruptMsg : ServerMessage :=
  { inputTranscription := none, outputTranscription := none, audio := none,
    interrupted := true, toolCalls := [], turnComplete := false }

/-- A message carrying only the turn-complete signal. -/
def turnCompleteMsg : ServerMessage :=
  { inputTranscription := none, outputTranscription := none, audio := none,
    interrupted := false, toolCalls := [], turnComplete := true }

/-- A Listening session with two active sources and cursor 3, as reached
after scheduling two frames; C3 counterexample fixture. -/
def c3state : VAState :=
  { listeningState with
    sources := [0, 1]
    nextSourceId := 2
    nextStartTime := 3 }

/-- A Listening session with one active source and cursor 7; C3 witness
fixture. -/
def c3wstate : VAState :=
  { listeningState with
    sources := [3]
    nextSourceId := 4
    nextStartTime := 7 }

/-- An invocation of an unregistered tool name; C5 fixture. -/
def c5fc : FunctionCall :=
  { id := "call-1"
    name := "bookFlight"
    args := some { pickup := none, destination := none, vehicle := none } }

/-- A tool-call message carrying only the unregistered invocation; C5
counterexample fixture. -/
def unknownToolMsg : ServerMessage :=
  { inputTranscription := none
    outputTranscription := none
    audio := none
    interrupted := false
    toolCalls := [c5fc]
    turnComplete := false }

/-- Arguments with an out-of-enumeration vehicle; C6 witness fixture. -/
def c6args : RideArgs :=
  { pickup := some "Basavakalyan Fort"
    destination := some "City Bus Stand"
    vehicle := some "TRUCK" }

/-- A controlRide invocation carrying those arguments; C6 witness
fixture. -/
def c6fc : FunctionCall :=
  { id := "call-2"
    name := "controlRide"
    args := some c6args }

/-- A Listening session with both transcripts non-empty; C8 fixture. -/
def c8state : VAState :=
  { listeningState with
    userTranscription := "book a car"
    assistantResponse := "On the way." }

/-- A message carrying transcription updates and the turn-complete flag;
C8 witness fixture. -/
def c8msg : ServerMessage :=
  { inputTranscription := some "book a bike"
    outputTranscription := some "Sure."
    audio := none
    interrupted := false
    toolCalls := []
    turnComplete := true }

/-- A Listening session with a pending user transcript; C9 fixture. -/
def c9state : VAState :=
  { listeningState with userTranscription := "book a car" }

/-- A message carrying a malformed audio frame together with a
turn-complete flag; C9 fixture. -/
def c9msg : ServerMessage :=
  { inputTranscription := none
    outputTranscription := none
    audio := some .malformed
    interrupted := false
    toolCalls := []
    turnComplete := true }

/-- Intervals listed as (start, duration): consecutive intervals do not
overlap. -/
def nonOverlapping (l : List (ℚ × ℚ)) : Prop :=
  l.Chain' (fun a b => a.1 + a.2 ≤ b.1)

/-- Start times are non-decreasing along the list. -/
def startsMonotone (l : List (ℚ × ℚ)) : Prop :=
  l.Chain' (fun a b => a.1 ≤ b.1)

/-- Consecutive intervals are back-to-back: each start is the previous end. -/
def backToBack (l : List (ℚ × ℚ)) : Prop :=
  l.Chain' (fun a b => b.1 = a.1 + a.2)

/- ## C4: ResilientCaller, success after two transient failures -/

/-- C4: for every operation that fails with a transient error on its first
two invocations and succeeds on the third, `withRetry` returns the success
value, invokes the operation exactly 3 times, and the two inter-attempt
delays `baseDelay * 2 ^ attempt + jitter` (attempt zero-indexed, jitter
drawn from [0, 1000)) are strictly increasing for every choice of jitter
values. -/
theorem c4_retry_transient_success {α : Type} (v : α) (op : Nat → CallOutcome α)
    (jitter : Nat → ℚ)
    (h0 : op 0 = .err true) (h1 : op 1 = .err true) (h2 : op 2 = .ok v)
    (hj : ∀ i, 0 ≤ jitter i ∧ jitter i < 1000) :
    withRetry op jitter =
      { result := some v, calls := 3,
        delays := [retryDelay 0 (jitter 0), retryDelay 1 (jitter 1)] } ∧
    retryDelay 0 (jitter 0) < retryDelay 1 (jitter 1) := by
  constructor
  · simp [withRetry, MAX_RETRIES, withRetryGo, h0, h1, h2]
  · have hj0 := (hj 0).2
    have hj1 := (hj 1).1
    simp only [retryDelay, pow_zero, pow_one, one_mul]
    linarith

/-- C4 witness: the theorem applied to a concrete operation that fails
transiently twice and then returns 7, with constant jitter 5. -/
theorem c4_retry_transient_success_witness :
    withRetry c4op c4jitter =
      { result := some 7, calls := 3,
        delays := [retryDelay 0 (c4jitter 0), retryDelay 1 (c4jitter 1)] } ∧
    retryDelay 0 (c4jitter 0) < retryDelay 1 (c4jitter 1) :=
  c4_retry_transient_success 7 c4op c4jitter rfl rfl rfl
    (fun _ => by constructor <;> norm_num [c4jitter])

/- ## C7: capture-side PCM conversion -/

/-- Shared helper: ToInt16 is the identity on values already in the int16
range. -/
theorem toInt16_eq_self {n : ℤ} (h1 : -32768 ≤ n) (h2 : n ≤ 32767) : toInt16 n = n := by
  unfold toInt16
  omega

/-- Shared helper: truncation toward zero of a rational in
[-32768, 32768) lands in the int16 range. -/
theorem jsTrunc_bounds {q : ℚ} (h1 : -32768 ≤ q) (h2 : q < 32768) :
    -32768 ≤ jsTrunc q ∧ jsTrunc q ≤ 32767 := by
  unfold jsTrunc
  split
  · rename_i hq
    have hlo : (0 : ℤ) ≤ ⌊q⌋ := Int.floor_nonneg.mpr hq
    have hhi : ⌊q⌋ < 32768 := by
      rw [Int.floor_lt]
      exact_mod_cast h2
    omega
  · rename_i hq
    push_neg at hq
    have hlo : (0 : ℤ) ≤ ⌊-q⌋ := Int.floor_nonneg.mpr (by linarith)
    have hub : ⌊-q⌋ ≤ 32768 := by
      have h : (-q : ℚ) ≤ ((32768 : ℤ) : ℚ) := by push_cast; linarith
      have := Int.floor_le_floor h
      simpa using this
    omega

/-- Shared helper: for samples in [-1, 1) the Int16Array store does not
wrap, and equals plain truncation of the scaled sample. -/
theorem sampleToInt16_in_range {x : ℚ} (h1 : -1 ≤ x) (h2 : x < 1) :
    sampleToInt16 x = jsTrunc (x * 32768) ∧
    -32768 ≤ sampleToInt16 x ∧ sampleToInt16 x ≤ 32767 := by
  have hq1 : (-32768 : ℚ) ≤ x * 32768 := by nlinarith
  have hq2 : x * 32768 < 32768 := by nlinarith
  obtain ⟨b1, b2⟩ := jsTrunc_bounds hq1 hq2
  unfold sampleToInt16
  rw [toInt16_eq_self b1 b2]
  exact ⟨rfl, b1, b2⟩

/-- Shared helper: truncation toward zero is the identity on integers. -/
theorem jsTrunc_intCast (n : ℤ) : jsTrunc (n : ℚ) = n := by
  unfold jsTrunc
  split
  · exact Int.floor_intCast n
  · rw [← Int.cast_neg, Int.floor_intCast, neg_neg]

/-- Shared helper: the capture path wraps the full-scale sample 1 to
-32768. -/
theorem sampleToInt16_one : sampleToInt16 1 = -32768 := by
  have h : (1 : ℚ) * 32768 = ((32768 : ℤ) : ℚ) := by norm_num
  unfold sampleToInt16
  rw [h, jsTrunc_intCast]
  decide

/-- Shared helper: the conversion claimed by the spec sends sample 1 to
32767. -/
theorem specSampleToInt16_one : specSampleToInt16 1 = 32767 := by
  have h : (1 : ℚ) * 32767 = ((32767 : ℤ) : ℚ) := by norm_num
  unfold specSampleToInt16
  rw [h, round_intCast]
  decide

/-- C7 counterexample: the in-range sample 1 is converted by the capture
path to -32768 (scale by 32768, truncate, wrap modulo 2^16), while the
round-and-clamp conversion the claim describes yields 32767; the encoded
outputs differ. -/
theorem c7_counterexample :
    (-1 : ℚ) ≤ 1 ∧ (1 : ℚ) ≤ 1 ∧
    sampleToInt16 1 = -32768 ∧ specSampleToInt16 1 = 32767 ∧
    onaudioprocessBlobData [1] ≠ specBlobData [1] := by
  refine ⟨by norm_num, le_refl 1, sampleToInt16_one, specSampleToInt16_one, ?_⟩
  simp only [onaudioprocessBlobData, specBlobData, List.flatMap_cons, List.flatMap_nil,
    List.append_nil, sampleToInt16_one, specSampleToInt16_one]
  decide

/-- C7 amended: encode scales each sample by 32768 and truncates toward
zero (the JavaScript Int16Array store), reducing modulo 2^16 into the
int16 range instead of clamping - no wrap occurs for samples in [-1, 1),
while the full-scale sample 1 wraps to -32768; the 16-bit values are
serialized little-endian and the wire transport encoding is applied. -/
theorem c7_amended_encode (x : ℚ) (h1 : -1 ≤ x) (h2 : x < 1) :
    sampleToInt16 x = jsTrunc (x * 32768) ∧
    -32768 ≤ sampleToInt16 x ∧ sampleToInt16 x ≤ 32767 ∧
    sampleToInt16 1 = -32768 ∧
    onaudioprocessBlobData [x] = encode (int16LE (jsTrunc (x * 32768))) := by
  obtain ⟨e, b1, b2⟩ := sampleToInt16_in_range h1 h2
  refine ⟨e, b1, b2, sampleToInt16_one, ?_⟩
  simp [onaudioprocessBlobData, e]

/-- C7 witness: the amended theorem applied to the concrete sample 1/2. -/
theorem c7_amended_encode_witness :
    sampleToInt16 (1 / 2) = jsTrunc ((1 / 2 : ℚ) * 32768) ∧
    -32768 ≤ sampleToInt16 (1 / 2 : ℚ) ∧ sampleToInt16 (1 / 2 : ℚ) ≤ 32767 ∧
    sampleToInt16 1 = -32768 ∧
    onaudioprocessBlobData [(1 / 2 : ℚ)] =
      encode (int16LE (jsTrunc ((1 / 2 : ℚ) * 32768))) :=
  c7_amended_encode (1 / 2) (by norm_num) (by norm_num)

/- ## C10: stopListening idempotence and single release -/

/-- Shared helper: closed form of one `stopListening` run. -/
theorem stopListening_eq (s : VAState) :
    stopListening s =
      { s with
        streamOpen := false
        streamStopCount := s.streamStopCount + (if s.streamOpen then 1 else 0)
        inputCtx := if s.inputCtx = some true then some false else s.inputCtx
        inputCtxCloseCount :=
          s.inputCtxCloseCount + (if s.inputCtx = some true then 1 else 0)
        outputCtx := if s.outputCtx = some true then some false else s.outputCtx
        outputCtxCloseCount :=
          s.outputCtxCloseCount + (if s.outputCtx = some true then 1 else 0)
        stoppedSources := s.stoppedSources ++ s.sources
        sources := []
        processorOpen := false
        sessionOpen := false
        sessionCloseCount :=
          s.sessionCloseCount + (if s.sessionOpen then 1 else 0)
        isListening := false
        hostOverlayOpen := false } := by
  obtain ⟨st, ut, ar, il, so, ic, oc, po, se, src, nst, ssrc, sch, nsi, k1, k2, k3, k4, ho⟩ := s
  cases so <;> cases po <;> cases se <;> rcases ic with _ | (_ | _) <;>
    rcases oc with _ | (_ | _) <;> rfl

/-- Shared helper: a second `stopListening` changes nothing. -/
theorem stopListening_idem (s : VAState) :
    stopListening (stopListening s) = stopListening s := by
  obtain ⟨st, ut, ar, il, so, ic, oc, po, se, src, nst, ssrc, sch, nsi, k1, k2, k3, k4, ho⟩ := s
  cases so <;> cases po <;> cases se <;> rcases ic with _ | (_ | _) <;>
    rcases oc with _ | (_ | _) <;> simp [stopListening]

/-- C10: `stopListening` invoked twice in a row makes the second invocation
a no-op (the whole session state, device handles and ghost close counters
included, is unchanged), any number of consecutive invocations equals one,
each device is closed exactly once when it was open and never again
otherwise, and every handle is released afterwards - from every state,
including states where open never completed. -/
theorem c10_stop_idempotent (s : VAState) (n : ℕ) :
    stopListening (stopListening s) = stopListening s ∧
    stopListening^[n + 1] s = stopListening s ∧
    (stopListening s).streamStopCount =
      s.streamStopCount + (if s.streamOpen then 1 else 0) ∧
    (stopListening s).inputCtxCloseCount =
      s.inputCtxCloseCount + (if s.inputCtx = some true then 1 else 0) ∧
    (stopListening s).outputCtxCloseCount =
      s.outputCtxCloseCount + (if s.outputCtx = some true then 1 else 0) ∧
    (stopListening s).sessionCloseCount =
      s.sessionCloseCount + (if s.sessionOpen then 1 else 0) ∧
    allHandlesReleased (stopListening s) = true := by
  refine ⟨stopListening_idem s, ?_, ?_, ?_, ?_, ?_, ?_⟩
  · induction n with
    | zero => simp
    | succ k ih =>
        rw [Function.iterate_succ_apply', ih, stopListening_idem]
  · rw [stopListening_eq]
  · rw [stopListening_eq]
  · rw [stopListening_eq]
  · rw [stopListening_eq]
  · rw [stopListening_eq]
    simp only [allHandlesReleased, captureOpen, outputOpen, networkOpen]
    rcases s.outputCtx with _ | b
    · rfl
    · cases b <;> simp

/- ## C1: session resource invariant -/

/-- C1 counterexample: when the microphone is acquired but the network
connect then rejects, `connectAndListen` reaches a host-observable state
(the catch block has run and set a failure status, and the component keeps
rendering) in which the capture and output handles are still open while the
network handle is released: neither all-open nor all-released, with a
Failed status. -/
theorem c1_counterexample :
    specStatus (connectAndListen (.connectFails .other) initState).status = .failed ∧
    captureOpen (connectAndListen (.connectFails .other) initState) = true ∧
    outputOpen (connectAndListen (.connectFails .other) initState) = true ∧
    networkOpen (connectAndListen (.connectFails .other) initState) = false ∧
    allHandlesOpen (connectAndListen (.connectFails .other) initState) = false ∧
    allHandlesReleased (connectAndListen (.connectFails .other) initState) = false := by
  decide

/-- C1 amended: after a successful start all three handles are open with
status Listening, and after a failed microphone acquisition all handles are
released with a Failed status; but when the network connect fails after
device acquisition, the capture and output handles remain open (only the
network handle is unopened) while the status is Failed, and the handles are
only released by a subsequent `stopListening`, which releases them all from
every start outcome. -/
theorem c1_amended_invariant (env : StartEnv) :
    allHandlesReleased (stopListening (connectAndListen env initState)) = true ∧
    (match env with
     | .ok =>
        allHandlesOpen (connectAndListen env initState) = true ∧
        specStatus (connectAndListen env initState).status = .listening
     | .micFails _ =>
        allHandlesReleased (connectAndListen env initState) = true ∧
        specStatus (connectAndListen env initState).status = .failed
     | .connectFails _ =>
        captureOpen (connectAndListen env initState) = true ∧
        outputOpen (connectAndListen env initState) = true ∧
        networkOpen (connectAndListen env initState) = false ∧
        specStatus (connectAndListen env initState).status = .failed) := by
  rcases env with e | e | _ <;> try cases e
  all_goals decide

/- ## C2: gapless playback scheduling -/

/-- Shared helper: one audio-frame message with the output context present
schedules exactly one buffer at max(cursor, now) and advances the cursor to
that start plus the buffer duration (lines 117-125). -/
theorem onmessage_audioMsg (now dur : ℚ) (s : VAState) (h : HostState)
    (hctx : s.outputCtx = some true) :
    onmessage now s h (audioMsg dur) =
      { state := { s with
          scheduled := s.scheduled ++ [(max s.nextStartTime now, dur)],
          sources := s.sources ++ [s.nextSourceId],
          nextSourceId := s.nextSourceId + 1,
          nextStartTime := max s.nextStartTime now + dur },
        host := h, responses := [], decodeFailed := false } := by
  simp [onmessage, audioMsg, onmessageAfterAudio, applyToolCalls, decodePlayback, hctx]

/-- C2 counterexample: three buffers of duration 1 scheduled at device
times 0, 5, 6 from a fresh Listening session produce the playback intervals
(0,1), (5,1), (6,1); the gap between the first two intervals is 4, so the
claimed unconditional back-to-back (zero gap) property fails as soon as the
device clock passes the cursor between arrivals. -/
theorem c2_counterexample :
    ((onmessage 6 ((onmessage 5 ((onmessage 0 listeningState host0
          (audioMsg 1)).state) host0 (audioMsg 1)).state) host0
          (audioMsg 1)).state).scheduled = [(0, 1), (5, 1), (6, 1)] ∧
    ¬ backToBack [((0 : ℚ), (1 : ℚ)), (5, 1), (6, 1)] := by
  constructor
  · rw [onmessage_audioMsg 0 1 listeningState host0 rfl]
    rw [onmessage_audioMsg 5 1 _ host0 rfl]
    rw [onmessage_audioMsg 6 1 _ host0 rfl]
    have e1 : max listeningState.nextStartTime (0 : ℚ) = 0 := by
      simp [listeningState, connectAndListen, initState]
    simp only [e1, List.append_assoc, List.nil_append, List.cons_append]
    norm_num [listeningState, connectAndListen, initState, max_def]
  · simp only [backToBack, List.chain'_cons, List.chain'_singleton]
    norm_num

/-- C2 amended: each schedule starts its buffer at max(cursor, device time)
and advances the cursor to start plus duration; three buffers scheduled in
order with no interrupt give non-overlapping intervals with non-decreasing
start times, and the gaps are zero exactly when each later frame arrives
while the device time has not yet passed the cursor (burst arrival); when
the device clock overtakes the cursor the next start is the device time,
leaving a gap. -/
theorem c2_amended_schedule (s : VAState) (h : HostState) (t1 t2 t3 d1 d2 d3 : ℚ)
    (hctx : s.outputCtx = some true) (hsch : s.scheduled = [])
    (hd1 : 0 ≤ d1) (hd2 : 0 ≤ d2) :
    let r1 := onmessage t1 s h (audioMsg d1)
    let r2 := onmessage t2 r1.state h (audioMsg d2)
    let r3 := onmessage t3 r2.state h (audioMsg d3)
    let s1 := max s.nextStartTime t1
    let s2 := max (s1 + d1) t2
    let s3 := max (s2 + d2) t3
    r3.state.scheduled = [(s1, d1), (s2, d2), (s3, d3)] ∧
    r3.state.nextStartTime = s3 + d3 ∧
    nonOverlapping r3.state.scheduled ∧
    startsMonotone r3.state.scheduled ∧
    (t2 ≤ s1 + d1 → t3 ≤ s2 + d2 → backToBack r3.state.scheduled) := by
  intro r1 r2 r3 s1 s2 s3
  have h1 := onmessage_audioMsg t1 d1 s h hctx
  have hctx1 : (onmessage t1 s h (audioMsg d1)).state.outputCtx = some true := by
    rw [h1]; exact hctx
  have h2 := onmessage_audioMsg t2 d2 _ h hctx1
  have hctx2 :
      (onmessage t2 (onmessage t1 s h (audioMsg d1)).state h
        (audioMsg d2)).state.outputCtx = some true := by
    rw [h2, h1]; exact hctx
  have h3 := onmessage_audioMsg t3 d3 _ h hctx2
  have hsched : r3.state.scheduled = [(s1, d1), (s2, d2), (s3, d3)] := by
    show (onmessage t3 _ h (audioMsg d3)).state.scheduled = _
    rw [h3, h2, h1]
    simp [hsch, s1, s2, s3]
  have hcur : r3.state.nextStartTime = s3 + d3 := by
    show (onmessage t3 _ h (audioMsg d3)).state.nextStartTime = _
    rw [h3, h2, h1]
  refine ⟨hsched, hcur, ?_, ?_, ?_⟩
  · rw [hsched]
    simp only [nonOverlapping, List.chain'_cons, List.chain'_singleton]
    exact ⟨le_max_left _ _, le_max_left _ _, trivial⟩
  · rw [hsched]
    simp only [startsMonotone, List.chain'_cons, List.chain'_singleton]
    refine ⟨le_trans (le_add_of_nonneg_right hd1) (le_max_left _ _),
      le_trans (le_add_of_nonneg_right hd2) (le_max_left _ _), trivial⟩
  · intro hb2 hb3
    rw [hsched]
    simp only [backToBack, List.chain'_cons, List.chain'_singleton]
    exact ⟨max_eq_left hb2, max_eq_left hb3, trivial⟩

/-- C2 witness: the amended theorem at a fresh Listening session, all three
frames arriving at device time 0 with duration 1. -/
theorem c2_amended_schedule_witness :
    let r1 := onmessage 0 listeningState host0 (audioMsg 1)
    let r2 := onmessage 0 r1.state host0 (audioMsg 1)
    let r3 := onmessage 0 r2.state host0 (audioMsg 1)
    let s1 := max listeningState.nextStartTime 0
    let s2 := max (s1 + 1) 0
    let s3 := max (s2 + 1) 0
    r3.state.scheduled = [(s1, 1), (s2, 1), (s3, 1)] ∧
    r3.state.nextStartTime = s3 + 1 ∧
    nonOverlapping r3.state.scheduled ∧
    startsMonotone r3.state.scheduled ∧
    ((0 : ℚ) ≤ s1 + 1 → (0 : ℚ) ≤ s2 + 1 → backToBack r3.state.scheduled) :=
  c2_amended_schedule listeningState host0 0 0 0 1 1 1 rfl rfl
    (by norm_num) (by norm_num)

/- ## C3: interruption handling -/

/-- Shared helper: an interrupted-only message stops every active source,
clears the active set, resets the cursor to 0 and clears the assistant
transcript (lines 128-135). -/
theorem onmessage_interruptMsg (now : ℚ) (s : VAState) (h : HostState) :
    onmessage now s h interruptMsg =
      { state := { s with
          stoppedSources := s.stoppedSources ++ s.sources,
          sources := [],
          nextStartTime := 0,
          assistantResponse := "" },
        host := h, responses := [], decodeFailed := false } := by
  rcases hoc : s.outputCtx with _ | b <;>
    simp [onmessage, interruptMsg, onmessageAfterAudio, applyToolCalls, hoc]

/-- C3 counterexample: processing an interrupted event at device time 5 in
a session whose cursor is 3 and whose active set is the two sources 0 and 1
stops and clears every active source and clears the assistant transcript,
but resets the cursor to 0, not to the device's current time 5 as the claim
states. -/
theorem c3_counterexample :
    (onmessage 5 c3state host0 interruptMsg).state.sources = [] ∧
    (onmessage 5 c3state host0 interruptMsg).state.stoppedSources = [0, 1] ∧
    (onmessage 5 c3state host0 interruptMsg).state.assistantResponse = "" ∧
    (onmessage 5 c3state host0 interruptMsg).state.nextStartTime = 0 ∧
    (onmessage 5 c3state host0 interruptMsg).state.nextStartTime ≠ 5 := by
  rw [onmessage_interruptMsg 5 c3state host0]
  refine ⟨rfl, ?_, rfl, rfl, by norm_num⟩
  simp [c3state, listeningState, connectAndListen, initState]

/-- C3 amended: on an interrupted event every buffer in the active set is
stopped, the set is cleared and the assistant transcript is reset, but the
cursor is reset to the constant 0 rather than the device's current time;
because the device clock is nonnegative and schedule starts at
max(cursor, device time), the next scheduled buffer still starts at the
current device time rather than after previously queued audio. -/
theorem c3_amended_interrupt (now now2 dur : ℚ) (s : VAState) (h h2 : HostState)
    (hnow2 : 0 ≤ now2) (hctx : s.outputCtx = some true) :
    (onmessage now s h interruptMsg).state.sources = [] ∧
    (onmessage now s h interruptMsg).state.stoppedSources =
      s.stoppedSources ++ s.sources ∧
    (onmessage now s h interruptMsg).state.nextStartTime = 0 ∧
    (onmessage now s h interruptMsg).state.assistantResponse = "" ∧
    (onmessage now2 (onmessage now s h interruptMsg).state h2
        (audioMsg dur)).state.scheduled =
      (onmessage now s h interruptMsg).state.scheduled ++ [(now2, dur)] := by
  have hr := onmessage_interruptMsg now s h
  have hctx1 : (onmessage now s h interruptMsg).state.outputCtx = some true := by
    rw [hr]; exact hctx
  have h2' := onmessage_audioMsg now2 dur _ h2 hctx1
  refine ⟨by rw [hr], by rw [hr], by rw [hr], by rw [hr], ?_⟩
  rw [h2', hr]
  simp [max_eq_right hnow2]

/-- C3 witness: the amended theorem at an interrupt arriving at device time
5 in a session with one active source and cursor 7, followed by a frame of
duration 1 at device time 2. -/
theorem c3_amended_interrupt_witness :
    (onmessage 5 c3wstate host0 interruptMsg).state.sources = [] ∧
    (onmessage 5 c3wstate host0 interruptMsg).state.stoppedSources =
      c3wstate.stoppedSources ++ c3wstate.sources ∧
    (onmessage 5 c3wstate host0 interruptMsg).state.nextStartTime = 0 ∧
    (onmessage 5 c3wstate host0 interruptMsg).state.assistantResponse = "" ∧
    (onmessage 2 (onmessage 5 c3wstate host0 interruptMsg).state host0
        (audioMsg 1)).state.scheduled =
      (onmessage 5 c3wstate host0 interruptMsg).state.scheduled ++ [(2, 1)] :=
  c3_amended_interrupt 5 2 1 c3wstate host0 host0 (by norm_num) rfl

/- ## C5: tool dispatch totality -/

/-- C5 counterexample: a received invocation whose name is not controlRide
is skipped by the dispatch loop with no effect: zero ToolResults are
emitted (the claim requires exactly one, with an unsupported-error
payload) and the host state is untouched; the handler does not crash. -/
theorem c5_counterexample :
    (onmessage 0 listeningState host0 unknownToolMsg).responses = [] ∧
    (onmessage 0 listeningState host0 unknownToolMsg).responses.length ≠ 1 ∧
    (onmessage 0 listeningState host0 unknownToolMsg).host = host0 := by
  refine ⟨?_, ?_, ?_⟩ <;>
    simp [onmessage, unknownToolMsg, onmessageAfterAudio, applyToolCalls,
      applyToolCall, c5fc, listeningState, connectAndListen, initState]

/-- C5 amended: dispatch is total and never crashes, but an invocation
whose name is not controlRide, or whose args object is absent, is silently
ignored - no ToolResult is emitted and the host state is unchanged; an
invocation named controlRide with an args object emits exactly one
ToolResult echoing the invocation id and name with the success payload. -/
theorem c5_amended_dispatch (h : HostState) (fc : FunctionCall) :
    ((fc.name ≠ "controlRide" ∨ fc.args = none) → applyToolCall h fc = (h, [])) ∧
    (∀ a : RideArgs, fc.args = some a → fc.name = "controlRide" →
      (applyToolCall h fc).2 =
        [{ id := fc.id, name := fc.name, result := okToolResult }]) := by
  constructor
  · rintro (hn | ha)
    · rcases hargs : fc.args with _ | a
      · simp [applyToolCall, hargs]
      · simp [applyToolCall, hargs, hn]
    · simp [applyToolCall, ha]
  · intro a ha hn
    simp [applyToolCall, ha, hn]

/-- C5 witness: the amended theorem applied to the concrete unregistered
invocation. -/
theorem c5_amended_dispatch_witness :
    applyToolCall host0 c5fc = (host0, []) ∧ c5fc.name ≠ "controlRide" :=
  ⟨(c5_amended_dispatch host0 c5fc).1 (Or.inl (by decide)), by decide⟩

/- ## C6: invalid vehicle is ignored, rest still applied -/

/-- C6: a controlRide invocation whose vehicle value lies outside the
case-sensitive enumeration BIKE/AUTO/CAR leaves the vehicle selection
unchanged, still applies any truthy pickup and destination to host state,
still navigates to the booking view, and still returns the success
result. -/
theorem c6_invalid_vehicle (h : HostState) (fc : FunctionCall) (a : RideArgs)
    (v : String) (hname : fc.name = "controlRide") (hargs : fc.args = some a)
    (hveh : a.vehicle = some v)
    (hv : (["BIKE", "AUTO", "CAR"] : List String).contains v = false) :
    applyToolCall h fc =
      ({ pickup := if jsTruthy a.pickup then a.pickup.getD "" else h.pickup,
         destination :=
           if jsTruthy a.destination then a.destination.getD "" else h.destination,
         vehicle := h.vehicle,
         currentView := AppView.booking },
       [{ id := fc.id, name := fc.name, result := okToolResult }]) := by
  have hvo : vehicleOk a.vehicle = false := by
    rw [hveh]
    simp only [vehicleOk, hv, Bool.and_false]
  simp only [applyToolCall, hargs, hname, hvo, if_true, if_false, Bool.false_eq_true,
    reduceIte]
  split_ifs <;> rfl

/-- C6 witness: the theorem applied to a concrete invocation carrying
vehicle TRUCK with pickup and destination present. -/
theorem c6_invalid_vehicle_witness :
    applyToolCall host0 c6fc =
      ({ pickup := if jsTruthy c6args.pickup then c6args.pickup.getD "" else host0.pickup,
         destination :=
           if jsTruthy c6args.destination then c6args.destination.getD ""
           else host0.destination,
         vehicle := host0.vehicle,
         currentView := AppView.booking },
       [{ id := c6fc.id, name := c6fc.name, result := okToolResult }]) :=
  c6_invalid_vehicle host0 c6fc c6args "TRUCK" rfl rfl rfl (by decide)

/- ## C8: transcript update discipline -/

/-- C8 counterexample: a turn-complete event clears the user transcript but
leaves the assistant transcript untouched, contradicting the claim that
both strings are reset to empty when the turn completes. -/
theorem c8_counterexample :
    (onmessage 0 c8state host0 turnCompleteMsg).state.userTranscription = "" ∧
    (onmessage 0 c8state host0 turnCompleteMsg).state.assistantResponse = "On the way." ∧
    (onmessage 0 c8state host0 turnCompleteMsg).state.assistantResponse ≠ "" := by
  refine ⟨?_, ?_, ?_⟩ <;>
    simp [onmessage, turnCompleteMsg, onmessageAfterAudio, applyToolCalls, c8state,
      listeningState, connectAndListen, initState]

/-- C8 amended: each transcription event replaces (never appends to) its
transcript string; on turn-complete the user transcript alone is reset to
empty, while the assistant transcript is reset only by an interrupted
event. -/
theorem c8_amended_transcripts (now : ℚ) (s : VAState) (h : HostState)
    (m : ServerMessage) (ha : m.audio = none) :
    (onmessage now s h m).state.userTranscription =
      (if m.turnComplete then "" else m.inputTranscription.getD s.userTranscription) ∧
    (onmessage now s h m).state.assistantResponse =
      (if m.interrupted then "" else m.outputTranscription.getD s.assistantResponse) := by
  rcases hoc : s.outputCtx with _ | b <;>
  rcases hit : m.inputTranscription with _ | t1 <;>
  rcases hot : m.outputTranscription with _ | t2 <;>
  cases hint : m.interrupted <;>
  cases htc : m.turnComplete <;>
    simp [onmessage, onmessageAfterAudio, applyToolCalls, ha, hoc, hit, hot, hint, htc]

/-- C8 witness: the amended theorem at a concrete message replacing both
transcripts and completing the turn, from a state with both transcripts
non-empty. -/
theorem c8_amended_transcripts_witness :
    (onmessage 0 c8state host0 c8msg).state.userTranscription =
      (if c8msg.turnComplete then ""
       else c8msg.inputTranscription.getD c8state.userTranscription) ∧
    (onmessage 0 c8state host0 c8msg).state.assistantResponse =
      (if c8msg.interrupted then ""
       else c8msg.outputTranscription.getD c8state.assistantResponse) :=
  c8_amended_transcripts 0 c8state host0 c8msg rfl

/- ## C9: decode error containment -/

/-- C9 counterexample: a message carrying a malformed audio frame together
with a turn-complete flag aborts the handler at the decode: the frame is
dropped and the handler survives, but the turn-complete handling of the
same message is also skipped - the user transcript is not cleared, though
it is cleared when the same message arrives without the bad frame.  The
error therefore affects more than just the frame. -/
theorem c9_counterexample :
    (onmessage 0 c9state host0 c9msg).decodeFailed = true ∧
    (onmessage 0 c9state host0 c9msg).state.userTranscription = "book a car" ∧
    (onmessage 0 c9state host0 { c9msg with audio := none }).state.userTranscription
      = "" := by
  refine ⟨?_, ?_, ?_⟩ <;>
    simp [onmessage, onmessageAfterAudio, applyToolCalls, c9msg, c9state,
      decodePlayback, listeningState, connectAndListen, initState]

/-- C9 amended: a malformed inbound audio frame makes the decode throw,
which aborts the rest of that message's handling (interrupted, tool-call
and turn-complete blocks are skipped, so no responses are emitted and the
host state is untouched); the frame itself is dropped, the transcription
replacements that precede the decode are applied, the cursor has been
raised to max(cursor, device time), and the session's status, listening
flag, handles and playback state are unchanged, so later messages are
processed normally. -/
theorem c9_amended_decode (now : ℚ) (s : VAState) (h : HostState)
    (m : ServerMessage) (hm : m.audio = some .malformed)
    (hctx : s.outputCtx = some true) :
    (onmessage now s h m).decodeFailed = true ∧
    (onmessage now s h m).state.status = s.status ∧
    (onmessage now s h m).state.isListening = s.isListening ∧
    (onmessage now s h m).state.sources = s.sources ∧
    (onmessage now s h m).state.scheduled = s.scheduled ∧
    (onmessage now s h m).state.stoppedSources = s.stoppedSources ∧
    (onmessage now s h m).state.outputCtx = s.outputCtx ∧
    (onmessage now s h m).state.nextStartTime = max s.nextStartTime now ∧
    (onmessage now s h m).host = h ∧
    (onmessage now s h m).responses = [] ∧
    (onmessage now s h m).state.userTranscription =
      m.inputTranscription.getD s.userTranscription ∧
    (onmessage now s h m).state.assistantResponse =
      m.outputTranscription.getD s.assistantResponse := by
  rcases hit : m.inputTranscription with _ | t1 <;>
  rcases hot : m.outputTranscription with _ | t2 <;>
    simp [onmessage, hm, hctx, hit, hot, decodePlayback]

/-- C9 witness: the amended theorem at the concrete malformed-frame
message. -/
theorem c9_amended_decode_witness :
    (onmessage 0 c9state host0 c9msg).decodeFailed = true ∧
    (onmessage 0 c9state host0 c9msg).state.status = c9state.status ∧
    (onmessage 0 c9state host0 c9msg).state.isListening = c9state.isListening ∧
    (onmessage 0 c9state host0 c9msg).state.sources = c9state.sources ∧
    (onmessage 0 c9state host0 c9msg).state.scheduled = c9state.scheduled ∧
    (onmessage 0 c9state host0 c9msg).state.stoppedSources = c9state.stoppedSources ∧
    (onmessage 0 c9state host0 c9msg).state.outputCtx = c9state.outputCtx ∧
    (onmessage 0 c9state host0 c9msg).state.nextStartTime =
      max c9state.nextStartTime 0 ∧
    (onmessage 0 c9state host0 c9msg).host = host0 ∧
    (onmessage 0 c9state host0 c9msg).responses = [] ∧
    (onmessage 0 c9state host0 c9msg).state.userTranscription =
      c9msg.inputTranscription.getD c9state.userTranscription ∧
    (onmessage 0 c9state host0 c9msg).state.assistantResponse =
      c9msg.outputTranscription.getD c9state.assistantResponse :=
  c9_amended_decode 0 c9state host0 c9msg rfl rfl

end RishiBooking
